import Mathlib

/-!
Shallow embedding of `src/ml-components/bias-detection/alibi_detect_config.py`
(class `MLModelBiasDetector` and its helpers).

Modelling conventions:
* numpy 0/1 arrays and probability arrays become `List ℚ`; all scores are
  rationals (the Python floats are only ever built from finite means and
  differences, so the rational model is exact for the claims considered).
* a pandas `DataFrame` of categorical columns becomes a list of named string
  columns plus an explicit row count (`len(df)` in pandas is the row count).
* Python dicts (`metric_scores`, `group_scores`) become association lists with
  Python-dict insertion semantics: overwriting an existing key in place,
  appending a fresh key at the end (`dictInsert`).
* `raise ValueError(msg)` becomes `Except.error (PyError.valueError msg)`.
* `pd.Timestamp.now()` is modelled as an explicit `now : String` parameter of
  `detect_bias`; the real clock supplies a different value on each call.
* `logger.warning` output of `_compute_bias_metric` is modelled by the side
  function `metricWarnings` (the score computation itself is pure).
-/

namespace BiasDetection

/-- Supported bias detection metrics (`enum BiasMetric` in the source, in
declaration order). -/
inductive BiasMetric where
  | demographic_parity
  | equalized_odds
  | equal_opportunity
  | calibration
  | counterfactual_fairness
deriving DecidableEq

/-- The `.value` string of each enum member, as in the source. -/
def BiasMetric.value : BiasMetric → String
  | .demographic_parity => "demographic_parity"
  | .equalized_odds => "equalized_odds"
  | .equal_opportunity => "equal_opportunity"
  | .calibration => "calibration"
  | .counterfactual_fairness => "counterfactual_fairness"

/-- `list(BiasMetric)`: all enum members in declaration order. -/
def allMetrics : List BiasMetric :=
  [.demographic_parity, .equalized_odds, .equal_opportunity, .calibration,
   .counterfactual_fairness]

/-- A pandas DataFrame of categorical (string) columns: named columns plus the
row count (`len(df)`).  In pandas every column has length `nrows`; the claims
proved below never need that well-formedness assumption. -/
structure DataFrame where
  cols : List (String × List String)
  nrows : Nat
deriving DecidableEq

/-- `df[attr]`, as an `Option`: the first column named `attr`. -/
def DataFrame.column (df : DataFrame) (attr : String) : Option (List String) :=
  (df.cols.find? (fun c => decide (c.1 = attr))).map (fun c => c.2)

/-- `attr in df.columns`. -/
def DataFrame.hasColumn (df : DataFrame) (attr : String) : Bool :=
  df.cols.any (fun c => decide (c.1 = attr))

/-- Column lookup defaulted to the empty column.  Every metric helper is only
reached after `_validate_inputs` has checked that each configured attribute is
present, so the default is never observed on the paths the claims are about
(a missing column would raise `KeyError` in pandas). -/
def colFor (df : DataFrame) (attr : String) : List String :=
  (df.column attr).getD []

/-- Boolean-mask selection `vals[keys == k]` of numpy/pandas. -/
def maskSelect {α β : Type} [DecidableEq β] (vals : List α) (keys : List β) (k : β) :
    List α :=
  ((keys.zip vals).filter (fun p => decide (p.1 = k))).map (fun p => p.2)

/-- `np.mean` over a list of rationals (0 on the empty list; every use in the
source is guarded by a non-emptiness check). -/
def npMean (xs : List ℚ) : ℚ := xs.sum / (xs.length : ℚ)

/-- Python `max` over a list (0 on the empty list; every use in the source is
guarded by a length check). -/
def pyMax : List ℚ → ℚ
  | [] => 0
  | x :: xs => xs.foldl max x

/-- Python `min` over a list (0 on the empty list; guarded in the source). -/
def pyMin : List ℚ → ℚ
  | [] => 0
  | x :: xs => xs.foldl min x

/-- Helper for `Series.unique`: distinct values in order of first appearance,
with an accumulator of values already seen. -/
def uniqueAux (seen : List String) : List String → List String
  | [] => []
  | x :: xs => if x ∈ seen then uniqueAux seen xs else x :: uniqueAux (x :: seen) xs

/-- `Series.unique()`: distinct values in order of first appearance. -/
def uniqueVals (l : List String) : List String := uniqueAux [] l

/-- Python-dict insertion on an association list: overwrite an existing key in
place, otherwise append at the end. -/
def dictInsert (d : List (String × ℚ)) (k : String) (v : ℚ) : List (String × ℚ) :=
  if d.any (fun p => decide (p.1 = k)) then
    d.map (fun p => if p.1 = k then (k, v) else p)
  else d ++ [(k, v)]

/-- Python-dict lookup on an association list. -/
def dictLookup (d : List (String × ℚ)) (k : String) : Option ℚ :=
  (d.find? (fun p => decide (p.1 = k))).map (fun p => p.2)

/-- The only exception the source ever raises itself (`raise ValueError(msg)`).
The spec-level names ValidationError / ConfigurationError both correspond to
`ValueError` values in the code (and the constructor in fact raises nothing). -/
inductive PyError where
  | valueError (msg : String)
deriving DecidableEq

/-- Result record (`@dataclass BiasDetectionResult`), with the `metadata` dict
given its fixed field structure from `detect_bias`. -/
structure Metadata where
  model_name : String
  sample_size : Nat
  protected_attributes : List String
  metrics_computed : List String
  threshold : ℚ
  timestamp : String
deriving DecidableEq

structure BiasDetectionResult where
  overall_bias_score : ℚ
  bias_detected : Bool
  threshold_exceeded : Bool
  metric_scores : List (String × ℚ)
  group_scores : List (String × ℚ)
  recommendations : List String
  metadata : Metadata
deriving DecidableEq

/-- Configuration state of `MLModelBiasDetector` (the `detectors` dict of
static description records carries no behaviour and is omitted). -/
structure MLModelBiasDetector where
  model_name : String
  protected_attributes : List String
  threshold : ℚ
  metrics : List BiasMetric
deriving DecidableEq

/-- `MLModelBiasDetector.__init__`.  The constructor performs no argument
validation, so its embedding is total; it is wrapped in `Except` so that
claims about construction failure can be stated.  `metrics or list(BiasMetric)`
treats both `None` and the empty list as "use all metrics" (Python
truthiness). -/
def initDetector (model_name : String) (protected_attributes : List String)
    (threshold : ℚ) (metrics : Option (List BiasMetric)) :
    Except PyError MLModelBiasDetector :=
  .ok { model_name := model_name
        protected_attributes := protected_attributes
        threshold := threshold
        metrics :=
          match metrics with
          | none => allMetrics
          | some ms => if ms.isEmpty then allMetrics else ms }

/-- `_validate_inputs`, with the checks in source order and the source's
messages. -/
def validate_inputs (pa : List String) (preds labels : List ℚ) (df : DataFrame) :
    Except PyError Unit :=
  if preds.length ≠ labels.length then
    .error (.valueError "Predictions and true labels must have same length")
  else if preds.length ≠ df.nrows then
    .error (.valueError "Predictions and protected attributes must have same length")
  else
    match pa.find? (fun a => !(df.hasColumn a)) with
    | some a =>
      .error (.valueError ("Protected attribute " ++ a ++ " not found in data"))
    | none =>
      if !(preds.all (fun p => decide (p = 0) || decide (p = 1))) then
        .error (.valueError "Predictions must be binary (0 or 1)")
      else if !(labels.all (fun p => decide (p = 0) || decide (p = 1))) then
        .error (.valueError "True labels must be binary (0 or 1)")
      else .ok ()

/-- Body of one iteration of the attribute loop of `_demographic_parity`:
`none` when the attribute is skipped (`continue` / failed length guard),
otherwise the disparity that is maxed into the accumulator. -/
def dpAttrStep (preds : List ℚ) (col : List String) : Option ℚ :=
  let groups := uniqueVals col
  if groups.length < 2 then none
  else
    let rates := groups.filterMap (fun g =>
      if 0 < col.count g then some (npMean (maskSelect preds col g)) else none)
    if 2 ≤ rates.length then some (pyMax rates - pyMin rates) else none

/-- `_demographic_parity`. -/
def demographic_parity (pa : List String) (preds : List ℚ) (df : DataFrame) : ℚ :=
  pa.foldl (fun max_bias attr =>
    match dpAttrStep preds (colFor df attr) with
    | some b => max max_bias b
    | none => max_bias) 0

/-- The per-group TPR list of `_equalized_odds` / `_equal_opportunity`: for
each group with members and at least one positive label, the mean prediction
over its positive-label members. -/
def tprList (preds labels : List ℚ) (col : List String) : List ℚ :=
  (uniqueVals col).filterMap (fun g =>
    if 0 < col.count g then
      let glabels := maskSelect labels col g
      if 0 < glabels.count 1 then
        some (npMean (maskSelect (maskSelect preds col g) glabels 1))
      else none
    else none)

/-- The per-group FPR list of `_equalized_odds`. -/
def fprList (preds labels : List ℚ) (col : List String) : List ℚ :=
  (uniqueVals col).filterMap (fun g =>
    if 0 < col.count g then
      let glabels := maskSelect labels col g
      if 0 < glabels.count 0 then
        some (npMean (maskSelect (maskSelect preds col g) glabels 0))
      else none
    else none)

/-- `_equalized_odds`. -/
def equalized_odds (pa : List String) (preds labels : List ℚ) (df : DataFrame) : ℚ :=
  pa.foldl (fun max_bias attr =>
    let col := colFor df attr
    if (uniqueVals col).length < 2 then max_bias
    else
      let tprs := tprList preds labels col
      let fprs := fprList preds labels col
      let b1 := if 2 ≤ tprs.length then max max_bias (pyMax tprs - pyMin tprs)
                else max_bias
      if 2 ≤ fprs.length then max b1 (pyMax fprs - pyMin fprs) else b1) 0

/-- `_equal_opportunity`. -/
def equal_opportunity (pa : List String) (preds labels : List ℚ) (df : DataFrame) : ℚ :=
  pa.foldl (fun max_bias attr =>
    let col := colFor df attr
    if (uniqueVals col).length < 2 then max_bias
    else
      let tprs := tprList preds labels col
      if 2 ≤ tprs.length then max max_bias (pyMax tprs - pyMin tprs) else max_bias) 0

/-- Per-group calibration errors of `_calibration`: for each of the 10
equal-width bins `[i/10, (i+1)/10)` with members, the absolute difference of
the mean predicted probability and the mean true label within the bin. -/
def calibrationErrors (gprobs glabels : List ℚ) : List ℚ :=
  (List.range 10).filterMap (fun (i : Nat) =>
    let pairs := (gprobs.zip glabels).filter (fun pr =>
      decide ((i : ℚ) / 10 ≤ pr.1) && decide (pr.1 < ((i : ℚ) + 1) / 10))
    if 0 < pairs.length then
      some |npMean (pairs.map (fun pr => pr.1)) - npMean (pairs.map (fun pr => pr.2))|
    else none)

/-- The per-group mean-calibration-error list of `_calibration` for one
attribute column. -/
def calGroupList (probs labels : List ℚ) (col : List String) : List ℚ :=
  (uniqueVals col).filterMap (fun g =>
    if 0 < col.count g then
      let errs := calibrationErrors (maskSelect probs col g) (maskSelect labels col g)
      if 0 < errs.length then some (npMean errs) else none
    else none)

/-- `_calibration`. -/
def calibrationScore (pa : List String) (probs labels : List ℚ) (df : DataFrame) : ℚ :=
  pa.foldl (fun max_bias attr =>
    let col := colFor df attr
    if (uniqueVals col).length < 2 then max_bias
    else
      let gcals := calGroupList probs labels col
      if 2 ≤ gcals.length then max max_bias (pyMax gcals - pyMin gcals) else max_bias) 0

/-- `_counterfactual_fairness`: the source delegates verbatim to
`_demographic_parity`. -/
def counterfactual_fairness (pa : List String) (preds : List ℚ) (df : DataFrame) : ℚ :=
  demographic_parity pa preds df

/-- `_compute_bias_metric` (score component).  With no probabilities the
calibration branch returns `0.0` instead of raising. -/
def compute_bias_metric (d : MLModelBiasDetector) (m : BiasMetric)
    (preds labels : List ℚ) (df : DataFrame) (probs : Option (List ℚ)) : ℚ :=
  match m with
  | .demographic_parity => demographic_parity d.protected_attributes preds df
  | .equalized_odds => equalized_odds d.protected_attributes preds labels df
  | .equal_opportunity => equal_opportunity d.protected_attributes preds labels df
  | .calibration =>
    match probs with
    | none => 0
    | some ps => calibrationScore d.protected_attributes ps labels df
  | .counterfactual_fairness => counterfactual_fairness d.protected_attributes preds df

/-- The `logger.warning` messages emitted by `_compute_bias_metric` (only the
calibration-without-probabilities skip warns). -/
def metricWarnings (m : BiasMetric) (probs : Option (List ℚ)) : List String :=
  match m, probs with
  | .calibration, none => ["Calibration requires prediction probabilities, skipping"]
  | _, _ => []

/-- `_compute_group_bias`: the per-(attribute, group) score entries for one
metric, in loop order. -/
def compute_group_bias (pa : List String) (m : BiasMetric)
    (preds labels : List ℚ) (df : DataFrame) : List (String × ℚ) :=
  (pa.map (fun attr =>
    let col := colFor df attr
    (uniqueVals col).filterMap (fun g =>
      if 0 < col.count g then
        let score : ℚ :=
          match m with
          | .demographic_parity => npMean (maskSelect preds col g)
          | .equalized_odds | .equal_opportunity =>
            let glabels := maskSelect labels col g
            if 0 < glabels.count 1 then
              npMean (maskSelect (maskSelect preds col g) glabels 1)
            else 0
          | _ => 0
        some (attr ++ "_" ++ g ++ "_" ++ m.value, score)
      else none))).flatten

/-- The four metric-specific recommendation texts of
`_generate_recommendations` (emoji prefixes of the source strings omitted);
`none` for a metric name with no matching branch. -/
def specificRec (metric : String) : Option String :=
  if metric = "demographic_parity" then
    some ("Demographic parity violation detected. Consider rebalancing training data "
      ++ "or applying fairness constraints during training.")
  else if metric = "equalized_odds" then
    some ("Equalized odds violation detected. Consider post-processing techniques "
      ++ "to equalize true positive and false positive rates across groups.")
  else if metric = "equal_opportunity" then
    some ("Equal opportunity violation detected. Focus on equalizing true positive "
      ++ "rates across protected groups.")
  else if metric = "calibration" then
    some ("Calibration bias detected. Consider recalibrating model predictions "
      ++ "separately for each protected group.")
  else none

/-- The fixed general remediation suggestions appended by
`_generate_recommendations` (emoji prefixes omitted). -/
def generalRecs : List String :=
  ["Retrain model with fairness-aware algorithms",
   "Collect more representative training data",
   "Apply bias mitigation techniques (preprocessing, in-processing, or post-processing)",
   "Conduct regular bias audits with domain experts",
   "Review model decisions with affected stakeholders"]

/-- The no-bias notice (emoji prefix omitted). -/
def noBiasRec : String := "No significant bias detected. Continue monitoring."

/-- `_generate_recommendations`.  The `group_scores` argument of the source is
never read and is omitted.  Note the early return is keyed on the overall
`bias_detected` flag, not on any individual metric score. -/
def generate_recommendations (threshold : ℚ) (metric_scores : List (String × ℚ))
    (bias_detected : Bool) : List String :=
  if !bias_detected then [noBiasRec]
  else
    let problematic := (metric_scores.filter (fun p => decide (threshold < p.2))).map
      (fun p => p.1)
    problematic.filterMap specificRec ++ generalRecs

/-- `detect_bias`.  `now` stands for the `pd.Timestamp.now().isoformat()`
clock reading taken during the call. -/
def detect_bias (d : MLModelBiasDetector) (preds labels : List ℚ) (df : DataFrame)
    (probs : Option (List ℚ)) (now : String) : Except PyError BiasDetectionResult :=
  match validate_inputs d.protected_attributes preds labels df with
  | .error e => .error e
  | .ok _ =>
    let metric_scores := d.metrics.foldl (fun acc m =>
      dictInsert acc m.value (compute_bias_metric d m preds labels df probs)) []
    let group_scores := d.metrics.foldl (fun acc m =>
      (compute_group_bias d.protected_attributes m preds labels df).foldl
        (fun a kv => dictInsert a kv.1 kv.2) acc) []
    let overall_bias_score := npMean (metric_scores.map (fun p => p.2))
    let bias_detected := decide (d.threshold < overall_bias_score)
    .ok { overall_bias_score := overall_bias_score
          bias_detected := bias_detected
          threshold_exceeded := bias_detected
          metric_scores := metric_scores
          group_scores := group_scores
          recommendations := generate_recommendations d.threshold metric_scores bias_detected
          metadata := { model_name := d.model_name
                        sample_size := preds.length
                        protected_attributes := d.protected_attributes
                        metrics_computed := d.metrics.map (fun m => m.value)
                        threshold := d.threshold
                        timestamp := now } }

/-! ### Basic lemmas about the list-level helpers -/

/-- Unit interval membership, the invariant claimed for all scores. -/
def InUnit (q : ℚ) : Prop := 0 ≤ q ∧ q ≤ 1

theorem InUnit.zero : InUnit 0 := ⟨le_refl 0, by norm_num⟩

theorem InUnit.max {a b : ℚ} (ha : InUnit a) (hb : InUnit b) : InUnit (max a b) :=
  ⟨le_trans ha.1 (le_max_left a b), max_le ha.2 hb.2⟩

theorem mem_of_mem_uniqueAux {a : String} :
    ∀ (seen l : List String), a ∈ uniqueAux seen l → a ∈ l := by
  intro seen l
  induction l generalizing seen with
  | nil => simp [uniqueAux]
  | cons x xs ih =>
    intro h
    rw [uniqueAux] at h
    by_cases hx : x ∈ seen
    · simp only [if_pos hx] at h
      exact List.mem_cons_of_mem _ (ih _ h)
    · simp only [if_neg hx, List.mem_cons] at h
      rcases h with h | h
      · exact h ▸ List.mem_cons_self _ _
      · exact List.mem_cons_of_mem _ (ih _ h)

theorem mem_of_mem_uniqueVals {a : String} {l : List String}
    (h : a ∈ uniqueVals l) : a ∈ l :=
  mem_of_mem_uniqueAux [] l h

theorem mem_of_mem_maskSelect {α β : Type} [DecidableEq β] {vals : List α}
    {keys : List β} {k : β} {a : α} (h : a ∈ maskSelect vals keys k) : a ∈ vals := by
  unfold maskSelect at h
  rcases List.mem_map.mp h with ⟨p, hp, rfl⟩
  exact (List.of_mem_zip (List.mem_filter.mp hp).1).2

theorem npMean_nonneg {xs : List ℚ} (h : ∀ x ∈ xs, 0 ≤ x) : 0 ≤ npMean xs :=
  div_nonneg (List.sum_nonneg h) (Nat.cast_nonneg _)

theorem npMean_le_one {xs : List ℚ} (h : ∀ x ∈ xs, x ≤ 1) : npMean xs ≤ 1 := by
  rcases eq_or_ne xs [] with rfl | hne
  · simp [npMean]
  · have hlen : 0 < (xs.length : ℚ) := by
      exact_mod_cast List.length_pos.mpr hne
    rw [npMean, div_le_one hlen]
    calc xs.sum ≤ xs.length • (1 : ℚ) := List.sum_le_card_nsmul xs 1 h
    _ = (xs.length : ℚ) := by simp

theorem npMean_inUnit {xs : List ℚ} (h : ∀ x ∈ xs, InUnit x) : InUnit (npMean xs) :=
  ⟨npMean_nonneg (fun x hx => (h x hx).1), npMean_le_one (fun x hx => (h x hx).2)⟩

theorem foldl_max_le {b : ℚ} :
    ∀ (xs : List ℚ) (a : ℚ), a ≤ b → (∀ x ∈ xs, x ≤ b) → xs.foldl max a ≤ b := by
  intro xs
  induction xs with
  | nil => intro a ha _; exact ha
  | cons x xs ih =>
    intro a ha h
    exact ih _ (max_le ha (h x (List.mem_cons_self _ _)))
      (fun y hy => h y (List.mem_cons_of_mem _ hy))

theorem le_foldl_max : ∀ (xs : List ℚ) (a : ℚ), a ≤ xs.foldl max a := by
  intro xs
  induction xs with
  | nil => intro a; exact le_refl a
  | cons x xs ih => intro a; exact le_trans (le_max_left a x) (ih (max a x))

theorem le_foldl_min {b : ℚ} :
    ∀ (xs : List ℚ) (a : ℚ), b ≤ a → (∀ x ∈ xs, b ≤ x) → b ≤ xs.foldl min a := by
  intro xs
  induction xs with
  | nil => intro a ha _; exact ha
  | cons x xs ih =>
    intro a ha h
    exact ih _ (le_min ha (h x (List.mem_cons_self _ _)))
      (fun y hy => h y (List.mem_cons_of_mem _ hy))

theorem foldl_min_le : ∀ (xs : List ℚ) (a : ℚ), xs.foldl min a ≤ a := by
  intro xs
  induction xs with
  | nil => intro a; exact le_refl a
  | cons x xs ih => intro a; exact le_trans (ih (min a x)) (min_le_left a x)

theorem pyMax_le {xs : List ℚ} {b : ℚ} (hne : xs ≠ []) (h : ∀ x ∈ xs, x ≤ b) :
    pyMax xs ≤ b := by
  cases xs with
  | nil => exact absurd rfl hne
  | cons x xs =>
    exact foldl_max_le xs x (h x (List.mem_cons_self _ _))
      (fun y hy => h y (List.mem_cons_of_mem _ hy))

theorem le_pyMin {xs : List ℚ} {b : ℚ} (hne : xs ≠ []) (h : ∀ x ∈ xs, b ≤ x) :
    b ≤ pyMin xs := by
  cases xs with
  | nil => exact absurd rfl hne
  | cons x xs =>
    exact le_foldl_min xs x (h x (List.mem_cons_self _ _))
      (fun y hy => h y (List.mem_cons_of_mem _ hy))

theorem pyMin_le_pyMax {xs : List ℚ} (hne : xs ≠ []) : pyMin xs ≤ pyMax xs := by
  cases xs with
  | nil => exact absurd rfl hne
  | cons x xs => exact le_trans (foldl_min_le xs x) (le_foldl_max xs x)

/-- A `max − min` disparity over a non-empty list of unit-interval rates is
itself in the unit interval. -/
theorem disparity_inUnit {xs : List ℚ} (hne : xs ≠ []) (h : ∀ x ∈ xs, InUnit x) :
    InUnit (pyMax xs - pyMin xs) := by
  constructor
  · exact sub_nonneg.mpr (pyMin_le_pyMax hne)
  · have h1 : pyMax xs ≤ 1 := pyMax_le hne (fun x hx => (h x hx).2)
    have h2 : 0 ≤ pyMin xs := le_pyMin hne (fun x hx => (h x hx).1)
    linarith

theorem foldl_preserves {α : Type} (P : ℚ → Prop) (f : ℚ → α → ℚ)
    (hstep : ∀ b a, P b → P (f b a)) :
    ∀ (l : List α) (acc : ℚ), P acc → P (l.foldl f acc) := by
  intro l
  induction l with
  | nil => intro acc h; exact h
  | cons x xs ih => intro acc h; exact ih _ (hstep _ _ h)

/-! ### Unit-interval bounds for the metric computations -/

theorem InUnit.abs_sub {a b : ℚ} (ha : InUnit a) (hb : InUnit b) : InUnit |a - b| := by
  constructor
  · exact abs_nonneg _
  · rcases ha with ⟨ha0, ha1⟩
    rcases hb with ⟨hb0, hb1⟩
    rw [abs_sub_le_iff]
    constructor <;> linarith

theorem dpAttrStep_inUnit {preds : List ℚ} {col : List String}
    (hpreds : ∀ p ∈ preds, InUnit p) {b : ℚ}
    (h : dpAttrStep preds col = some b) : InUnit b := by
  unfold dpAttrStep at h
  dsimp only at h
  split at h
  · exact absurd h (by simp)
  · split at h
    · rename_i hlen
      rcases Option.some_injective _ h with rfl
      refine disparity_inUnit ?_ ?_
      · exact List.length_pos.mp (lt_of_lt_of_le (by norm_num) hlen)
      · intro r hr
        rcases List.mem_filterMap.mp hr with ⟨g, _, hg⟩
        split at hg
        · rcases Option.some_injective _ hg with rfl
          exact npMean_inUnit (fun x hx => hpreds x (mem_of_mem_maskSelect hx))
        · exact absurd hg (by simp)
    · exact absurd h (by simp)

theorem demographic_parity_inUnit (pa : List String) (preds : List ℚ) (df : DataFrame)
    (hpreds : ∀ p ∈ preds, InUnit p) : InUnit (demographic_parity pa preds df) := by
  refine foldl_preserves InUnit _ ?_ pa 0 InUnit.zero
  intro b attr hb
  cases heq : dpAttrStep preds (colFor df attr) with
  | none => simpa [heq] using hb
  | some x =>
    simp only [heq]
    exact hb.max (dpAttrStep_inUnit hpreds heq)

theorem mem_tprList_inUnit {preds labels : List ℚ} {col : List String}
    (hpreds : ∀ p ∈ preds, InUnit p) {r : ℚ} (h : r ∈ tprList preds labels col) :
    InUnit r := by
  rcases List.mem_filterMap.mp h with ⟨g, _, hg⟩
  dsimp only at hg
  split at hg
  · split at hg
    · rcases Option.some_injective _ hg with rfl
      exact npMean_inUnit (fun x hx =>
        hpreds x (mem_of_mem_maskSelect (mem_of_mem_maskSelect hx)))
    · exact absurd hg (by simp)
  · exact absurd hg (by simp)

theorem mem_fprList_inUnit {preds labels : List ℚ} {col : List String}
    (hpreds : ∀ p ∈ preds, InUnit p) {r : ℚ} (h : r ∈ fprList preds labels col) :
    InUnit r := by
  rcases List.mem_filterMap.mp h with ⟨g, _, hg⟩
  dsimp only at hg
  split at hg
  · split at hg
    · rcases Option.some_injective _ hg with rfl
      exact npMean_inUnit (fun x hx =>
        hpreds x (mem_of_mem_maskSelect (mem_of_mem_maskSelect hx)))
    · exact absurd hg (by simp)
  · exact absurd hg (by simp)

theorem equalized_odds_inUnit (pa : List String) (preds labels : List ℚ)
    (df : DataFrame) (hpreds : ∀ p ∈ preds, InUnit p) :
    InUnit (equalized_odds pa preds labels df) := by
  refine foldl_preserves InUnit _ ?_ pa 0 InUnit.zero
  intro b attr hb
  dsimp only
  split
  · exact hb
  · have hb1 : InUnit (if 2 ≤ (tprList preds labels (colFor df attr)).length then
        max b (pyMax (tprList preds labels (colFor df attr)) -
          pyMin (tprList preds labels (colFor df attr))) else b) := by
      split
      · rename_i hlen
        refine hb.max (disparity_inUnit ?_ (fun x hx => mem_tprList_inUnit hpreds hx))
        exact List.length_pos.mp (lt_of_lt_of_le (by norm_num) hlen)
      · exact hb
    split
    · rename_i hlen
      refine hb1.max (disparity_inUnit ?_ (fun x hx => mem_fprList_inUnit hpreds hx))
      exact List.length_pos.mp (lt_of_lt_of_le (by norm_num) hlen)
    · exact hb1

theorem equal_opportunity_inUnit (pa : List String) (preds labels : List ℚ)
    (df : DataFrame) (hpreds : ∀ p ∈ preds, InUnit p) :
    InUnit (equal_opportunity pa preds labels df) := by
  refine foldl_preserves InUnit _ ?_ pa 0 InUnit.zero
  intro b attr hb
  dsimp only
  split
  · exact hb
  · split
    · rename_i hlen
      refine hb.max (disparity_inUnit ?_ (fun x hx => mem_tprList_inUnit hpreds hx))
      exact List.length_pos.mp (lt_of_lt_of_le (by norm_num) hlen)
    · exact hb

theorem mem_calibrationErrors_inUnit {gprobs glabels : List ℚ}
    (hlabels : ∀ x ∈ glabels, InUnit x) {e : ℚ}
    (h : e ∈ calibrationErrors gprobs glabels) : InUnit e := by
  rcases List.mem_filterMap.mp h with ⟨i, hi, hg⟩
  dsimp only at hg
  split at hg
  · rcases Option.some_injective _ hg with rfl
    have hi10 : i < 10 := List.mem_range.mp hi
    refine InUnit.abs_sub (npMean_inUnit ?_) (npMean_inUnit ?_)
    · intro x hx
      rcases List.mem_map.mp hx with ⟨pr, hpr, rfl⟩
      have hcond := (List.mem_filter.mp hpr).2
      rw [Bool.and_eq_true, decide_eq_true_eq, decide_eq_true_eq] at hcond
      constructor
      · exact le_trans (div_nonneg (Nat.cast_nonneg i) (by norm_num)) hcond.1
      · have hle : ((i : ℚ) + 1) / 10 ≤ 1 := by
          rw [div_le_one (by norm_num : (0:ℚ) < 10)]
          have : (i : ℚ) ≤ 9 := by exact_mod_cast Nat.lt_succ_iff.mp hi10
          linarith
        exact le_trans (le_of_lt hcond.2) hle
    · intro x hx
      rcases List.mem_map.mp hx with ⟨pr, hpr, rfl⟩
      exact hlabels pr.2 (List.of_mem_zip (List.mem_filter.mp hpr).1).2
  · exact absurd hg (by simp)

theorem mem_calGroupList_inUnit {probs labels : List ℚ} {col : List String}
    (hlabels : ∀ x ∈ labels, InUnit x) {r : ℚ}
    (h : r ∈ calGroupList probs labels col) : InUnit r := by
  rcases List.mem_filterMap.mp h with ⟨g, _, hg⟩
  dsimp only at hg
  split at hg
  · split at hg
    · rcases Option.some_injective _ hg with rfl
      exact npMean_inUnit (fun e he => mem_calibrationErrors_inUnit
        (fun x hx => hlabels x (mem_of_mem_maskSelect hx)) he)
    · exact absurd hg (by simp)
  · exact absurd hg (by simp)

theorem calibrationScore_inUnit (pa : List String) (probs labels : List ℚ)
    (df : DataFrame) (hlabels : ∀ x ∈ labels, InUnit x) :
    InUnit (calibrationScore pa probs labels df) := by
  refine foldl_preserves InUnit _ ?_ pa 0 InUnit.zero
  intro b attr hb
  dsimp only
  split
  · exact hb
  · split
    · rename_i hlen
      refine hb.max (disparity_inUnit ?_ (fun x hx => mem_calGroupList_inUnit hlabels hx))
      exact List.length_pos.mp (lt_of_lt_of_le (by norm_num) hlen)
    · exact hb

theorem compute_bias_metric_inUnit (d : MLModelBiasDetector) (m : BiasMetric)
    (preds labels : List ℚ) (df : DataFrame) (probs : Option (List ℚ))
    (hpreds : ∀ p ∈ preds, InUnit p) (hlabels : ∀ x ∈ labels, InUnit x) :
    InUnit (compute_bias_metric d m preds labels df probs) := by
  cases m with
  | demographic_parity => exact demographic_parity_inUnit _ _ _ hpreds
  | equalized_odds => exact equalized_odds_inUnit _ _ _ _ hpreds
  | equal_opportunity => exact equal_opportunity_inUnit _ _ _ _ hpreds
  | calibration =>
    cases probs with
    | none => exact InUnit.zero
    | some ps => exact calibrationScore_inUnit _ _ _ _ hlabels
  | counterfactual_fairness => exact demographic_parity_inUnit _ _ _ hpreds

theorem mem_compute_group_bias_inUnit {pa : List String} {m : BiasMetric}
    {preds labels : List ℚ} {df : DataFrame}
    (hpreds : ∀ p ∈ preds, InUnit p) {kv : String × ℚ}
    (h : kv ∈ compute_group_bias pa m preds labels df) : InUnit kv.2 := by
  unfold compute_group_bias at h
  rcases List.mem_flatten.mp h with ⟨s, hs, hkv⟩
  rcases List.mem_map.mp hs with ⟨attr, _, rfl⟩
  rcases List.mem_filterMap.mp hkv with ⟨g, _, hg⟩
  split at hg
  · rcases Option.some_injective _ hg with rfl
    cases m with
    | demographic_parity =>
      exact npMean_inUnit (fun x hx => hpreds x (mem_of_mem_maskSelect hx))
    | equalized_odds =>
      dsimp only
      split
      · exact npMean_inUnit (fun x hx =>
          hpreds x (mem_of_mem_maskSelect (mem_of_mem_maskSelect hx)))
      · exact InUnit.zero
    | equal_opportunity =>
      dsimp only
      split
      · exact npMean_inUnit (fun x hx =>
          hpreds x (mem_of_mem_maskSelect (mem_of_mem_maskSelect hx)))
      · exact InUnit.zero
    | calibration => exact InUnit.zero
    | counterfactual_fairness => exact InUnit.zero
  · exact absurd hg (by simp)

/-! ### Association-list dictionary lemmas -/

theorem find?_ext {α : Type} {p q : α → Bool} (h : ∀ a, p a = q a) :
    ∀ l : List α, l.find? p = l.find? q := by
  intro l
  induction l with
  | nil => rfl
  | cons x xs ih => simp only [List.find?, h x, ih]

theorem mem_dictInsert {d : List (String × ℚ)} {k : String} {v : ℚ}
    {kv : String × ℚ} (h : kv ∈ dictInsert d k v) : kv ∈ d ∨ kv.2 = v := by
  unfold dictInsert at h
  split at h
  · rcases List.mem_map.mp h with ⟨p, hp, hkv⟩
    by_cases hpk : p.1 = k
    · right; rw [if_pos hpk] at hkv; subst hkv; rfl
    · left; rw [if_neg hpk] at hkv; exact hkv ▸ hp
  · rcases List.mem_append.mp h with h | h
    · left; exact h
    · right; rcases List.mem_singleton.mp h with rfl; rfl

theorem dictLookup_dictInsert_self (d : List (String × ℚ)) (k : String) (v : ℚ) :
    dictLookup (dictInsert d k v) k = some v := by
  unfold dictInsert dictLookup
  split
  · rename_i hany
    rw [List.find?_map]
    rw [find?_ext (q := fun p => decide (p.1 = k)) (fun p => by
      by_cases hp : p.1 = k <;> simp [Function.comp, hp])]
    rcases List.any_eq_true.mp hany with ⟨p0, hp0, hp0k⟩
    have hsome : (d.find? (fun p => decide (p.1 = k))).isSome := by
      rw [List.find?_isSome]
      exact ⟨p0, hp0, hp0k⟩
    rcases Option.isSome_iff_exists.mp hsome with ⟨p1, hp1⟩
    have hp1k : p1.1 = k :=
      of_decide_eq_true (List.find?_some (p := fun (x : String × Rat) => decide (x.1 = k)) hp1)
    rw [hp1]
    simp [hp1k]
  · rename_i hany
    rw [List.find?_append]
    have hnone : d.find? (fun p => decide (p.1 = k)) = none := by
      rw [List.find?_eq_none]
      intro p hp hpk
      exact hany (List.any_eq_true.mpr ⟨p, hp, hpk⟩)
    rw [hnone]
    simp [List.find?]

theorem dictLookup_dictInsert_ne {q k : String} (hne : q ≠ k)
    (d : List (String × ℚ)) (v : ℚ) :
    dictLookup (dictInsert d k v) q = dictLookup d q := by
  unfold dictInsert dictLookup
  split
  · rw [List.find?_map]
    rw [find?_ext (q := fun p => decide (p.1 = q)) (fun p => by
      by_cases hp : p.1 = k <;> simp [Function.comp, hp, Ne.symm hne])]
    cases hf : d.find? (fun p => decide (p.1 = q)) with
    | none => rfl
    | some p0 =>
      have hp0 : p0.1 = q :=
        of_decide_eq_true (List.find?_some (p := fun (x : String × Rat) => decide (x.1 = q)) hf)
      have : ¬ p0.1 = k := by rw [hp0]; exact hne
      simp [this]
  · rw [List.find?_append]
    have h2 : List.find? (fun p => decide (p.1 = q)) [(k, v)] = none := by
      simp [List.find?, Ne.symm hne]
    rw [h2]
    cases d.find? (fun p => decide (p.1 = q)) <;> rfl

theorem dictLookup_metric_fold {k : String} {v : ℚ} (f : BiasMetric → ℚ)
    (hall : ∀ m : BiasMetric, m.value = k → f m = v) :
    ∀ (ms : List BiasMetric) (acc : List (String × ℚ)),
      ((∃ m ∈ ms, m.value = k) ∨ dictLookup acc k = some v) →
      dictLookup (ms.foldl (fun d m => dictInsert d m.value (f m)) acc) k = some v := by
  intro ms
  induction ms with
  | nil =>
    intro acc h
    rcases h with ⟨m, hm, _⟩ | h
    · exact absurd hm (List.not_mem_nil m)
    · exact h
  | cons m rest ih =>
    intro acc h
    simp only [List.foldl_cons]
    by_cases hmk : m.value = k
    · refine ih _ (Or.inr ?_)
      rw [hmk, dictLookup_dictInsert_self, hall m hmk]
    · refine ih _ ?_
      rcases h with ⟨m1, hm1, hk1⟩ | h
      · rcases List.mem_cons.mp hm1 with rfl | hm1r
        · exact absurd hk1 hmk
        · exact Or.inl ⟨m1, hm1r, hk1⟩
      · refine Or.inr ?_
        rw [dictLookup_dictInsert_ne (fun he => hmk he.symm), h]

theorem metric_fold_values (P : ℚ → Prop) (f : BiasMetric → ℚ) (hf : ∀ m, P (f m)) :
    ∀ (ms : List BiasMetric) (acc : List (String × ℚ)),
      (∀ kv ∈ acc, P kv.2) →
      ∀ kv ∈ ms.foldl (fun d m => dictInsert d m.value (f m)) acc, P kv.2 := by
  intro ms
  induction ms with
  | nil => intro acc hacc kv hkv; exact hacc kv hkv
  | cons m rest ih =>
    intro acc hacc kv hkv
    refine ih _ ?_ kv hkv
    intro kv1 hkv1
    rcases mem_dictInsert hkv1 with h | h
    · exact hacc kv1 h
    · rw [h]; exact hf m

theorem pair_fold_values (P : ℚ → Prop) :
    ∀ (ls acc : List (String × ℚ)),
      (∀ kv ∈ acc, P kv.2) → (∀ kv ∈ ls, P kv.2) →
      ∀ kv ∈ ls.foldl (fun a p => dictInsert a p.1 p.2) acc, P kv.2 := by
  intro ls
  induction ls with
  | nil => intro acc hacc _ kv hkv; exact hacc kv hkv
  | cons p rest ih =>
    intro acc hacc hls kv hkv
    refine ih _ ?_ (fun q hq => hls q (List.mem_cons_of_mem _ hq)) kv hkv
    intro kv1 hkv1
    rcases mem_dictInsert hkv1 with h | h
    · exact hacc kv1 h
    · rw [h]; exact hls p (List.mem_cons_self _ _)

theorem group_fold_values (P : ℚ → Prop) (gb : BiasMetric → List (String × ℚ))
    (hgb : ∀ m, ∀ kv ∈ gb m, P kv.2) :
    ∀ (ms : List BiasMetric) (acc : List (String × ℚ)),
      (∀ kv ∈ acc, P kv.2) →
      ∀ kv ∈ ms.foldl (fun acc m =>
        (gb m).foldl (fun a p => dictInsert a p.1 p.2) acc) acc, P kv.2 := by
  intro ms
  induction ms with
  | nil => intro acc hacc kv hkv; exact hacc kv hkv
  | cons m rest ih =>
    intro acc hacc kv hkv
    exact ih _ (pair_fold_values P (gb m) acc hacc (hgb m)) kv hkv

/-! ### Validation lemmas -/

theorem bool_of_not_not {b : Bool} (h : ¬ ((!b) = true)) : b = true := by
  cases b
  · exact absurd rfl h
  · rfl

theorem validate_inputs_ok {pa : List String} {preds labels : List ℚ}
    {df : DataFrame} (h : validate_inputs pa preds labels df = .ok ()) :
    preds.length = labels.length ∧ preds.length = df.nrows ∧
    (∀ a ∈ pa, df.hasColumn a = true) ∧
    (∀ p ∈ preds, p = 0 ∨ p = 1) ∧ (∀ p ∈ labels, p = 0 ∨ p = 1) := by
  unfold validate_inputs at h
  split at h
  · exact absurd h (by simp)
  · rename_i hlen1
    split at h
    · exact absurd h (by simp)
    · rename_i hlen2
      split at h
      · exact absurd h (by simp)
      · rename_i hfind
        split at h
        · exact absurd h (by simp)
        · rename_i hpall
          split at h
          · exact absurd h (by simp)
          · rename_i hlall
            refine ⟨not_ne_iff.mp hlen1, not_ne_iff.mp hlen2, ?_, ?_, ?_⟩
            · intro a ha
              have := List.find?_eq_none.mp hfind a ha
              simpa using this
            · intro p hp
              have hall := List.all_eq_true.mp (bool_of_not_not hpall) p hp
              simpa using hall
            · intro p hp
              have hall := List.all_eq_true.mp (bool_of_not_not hlall) p hp
              simpa using hall

theorem validate_inputs_error {pa : List String} {preds labels : List ℚ}
    {df : DataFrame} {e : PyError}
    (h : validate_inputs pa preds labels df = .error e) :
    ∃ msg, e = .valueError msg ∧
      (msg = "Predictions and true labels must have same length" ∨
       msg = "Predictions and protected attributes must have same length" ∨
       (∃ a, msg = "Protected attribute " ++ a ++ " not found in data") ∨
       msg = "Predictions must be binary (0 or 1)" ∨
       msg = "True labels must be binary (0 or 1)") := by
  unfold validate_inputs at h
  split at h
  · injection h with he
    exact ⟨_, he.symm, Or.inl rfl⟩
  · split at h
    · injection h with he
      exact ⟨_, he.symm, Or.inr (Or.inl rfl)⟩
    · split at h
      · rename_i a ha
        injection h with he
        exact ⟨_, he.symm, Or.inr (Or.inr (Or.inl ⟨a, rfl⟩))⟩
      · split at h
        · injection h with he
          exact ⟨_, he.symm, Or.inr (Or.inr (Or.inr (Or.inl rfl)))⟩
        · split at h
          · injection h with he
            exact ⟨_, he.symm, Or.inr (Or.inr (Or.inr (Or.inr rfl)))⟩
          · exact absurd h (by simp)

/-- Elimination principle for a successful `detect_bias` call: validation
passed and every field of the report is the corresponding computed value. -/
theorem detect_bias_ok {d : MLModelBiasDetector} {preds labels : List ℚ}
    {df : DataFrame} {probs : Option (List ℚ)} {now : String}
    {r : BiasDetectionResult}
    (h : detect_bias d preds labels df probs now = .ok r) :
    validate_inputs d.protected_attributes preds labels df = .ok () ∧
    r.metric_scores = d.metrics.foldl (fun acc m =>
      dictInsert acc m.value (compute_bias_metric d m preds labels df probs)) [] ∧
    r.group_scores = d.metrics.foldl (fun acc m =>
      (compute_group_bias d.protected_attributes m preds labels df).foldl
        (fun a kv => dictInsert a kv.1 kv.2) acc) [] ∧
    r.overall_bias_score = npMean (r.metric_scores.map (fun p => p.2)) ∧
    r.bias_detected = decide (d.threshold < r.overall_bias_score) ∧
    r.threshold_exceeded = r.bias_detected ∧
    r.recommendations =
      generate_recommendations d.threshold r.metric_scores r.bias_detected ∧
    r.metadata = { model_name := d.model_name
                   sample_size := preds.length
                   protected_attributes := d.protected_attributes
                   metrics_computed := d.metrics.map (fun m => m.value)
                   threshold := d.threshold
                   timestamp := now } := by
  unfold detect_bias at h
  cases hval : validate_inputs d.protected_attributes preds labels df with
  | error e =>
    rw [hval] at h
    exact absurd h (by simp)
  | ok u =>
    cases u
    rw [hval] at h
    injection h with hr
    subst hr
    exact ⟨rfl, rfl, rfl, rfl, rfl, rfl, rfl, rfl⟩

/-- A validation failure is propagated unchanged by `detect_bias`. -/
theorem detect_bias_error {d : MLModelBiasDetector} {preds labels : List ℚ}
    {df : DataFrame} {probs : Option (List ℚ)} {now : String} {e : PyError}
    (h : validate_inputs d.protected_attributes preds labels df = .error e) :
    detect_bias d preds labels df probs now = .error e := by
  unfold detect_bias
  rw [h]

/-! ### Demographic parity against the spec's wording -/

/-- Modelled from the spec wording (refinement reference, not from the code):
for an attribute column, if it has at least two distinct group values, the
disparity is the maximum minus the minimum of the per-group mean prediction
rates (every group value occurring in the column has at least one member);
attributes with fewer than two distinct values are skipped. -/
def dpSpecAttr (preds : List ℚ) (col : List String) : Option ℚ :=
  let groups := uniqueVals col
  if 2 ≤ groups.length then
    let rates := groups.map (fun g => npMean (maskSelect preds col g))
    some (pyMax rates - pyMin rates)
  else none

/-- Modelled from the spec wording: the demographic-parity score is the
maximum disparity across all configured protected attributes (0 when no
attribute qualifies). -/
def dpSpecScore (pa : List String) (preds : List ℚ) (df : DataFrame) : ℚ :=
  pyMax (0 :: pa.filterMap (fun attr => dpSpecAttr preds (colFor df attr)))

theorem count_pos_of_mem_uniqueVals {g : String} {col : List String}
    (h : g ∈ uniqueVals col) : 0 < col.count g :=
  List.count_pos_iff.mpr (mem_of_mem_uniqueVals h)

theorem filterMap_guard_eq_map {α β : Type} (l : List α) (p : α → Prop)
    [DecidablePred p] (f : α → β) (h : ∀ a ∈ l, p a) :
    l.filterMap (fun a => if p a then some (f a) else none) = l.map f := by
  induction l with
  | nil => rfl
  | cons x xs ih =>
    have hx := h x (List.mem_cons_self _ _)
    simp only [List.filterMap_cons, if_pos hx, List.map_cons]
    rw [ih (fun a ha => h a (List.mem_cons_of_mem _ ha))]

theorem dpAttrStep_eq_dpSpecAttr (preds : List ℚ) (col : List String) :
    dpAttrStep preds col = dpSpecAttr preds col := by
  unfold dpAttrStep dpSpecAttr
  dsimp only
  by_cases hlen : (uniqueVals col).length < 2
  · rw [if_pos hlen, if_neg (by omega)]
  · have h2 : 2 ≤ (uniqueVals col).length := by omega
    rw [if_neg hlen, if_pos h2]
    rw [filterMap_guard_eq_map (uniqueVals col) (fun g => 0 < col.count g)
      (fun g => npMean (maskSelect preds col g))
      (fun g hg => count_pos_of_mem_uniqueVals hg)]
    rw [if_pos (by rw [List.length_map]; exact h2)]

theorem foldl_optmax {α : Type} (f : α → Option ℚ) :
    ∀ (l : List α) (acc : ℚ),
      l.foldl (fun b a => match f a with | some d => max b d | none => b) acc
        = (l.filterMap f).foldl max acc := by
  intro l
  induction l with
  | nil => intro acc; rfl
  | cons x xs ih =>
    intro acc
    rw [List.foldl_cons, List.filterMap_cons]
    cases hfx : f x with
    | none => simp only [hfx]; exact ih acc
    | some d => simp only [hfx, List.foldl_cons]; exact ih (max acc d)

/-- The code's accumulator loop computes exactly the spec's "maximum
disparity across attributes" formula. -/
theorem demographic_parity_eq_spec (pa : List String) (preds : List ℚ)
    (df : DataFrame) : demographic_parity pa preds df = dpSpecScore pa preds df := by
  unfold demographic_parity dpSpecScore
  rw [foldl_optmax (fun attr => dpAttrStep preds (colFor df attr))]
  have hfun : (fun attr => dpAttrStep preds (colFor df attr))
      = (fun attr => dpSpecAttr preds (colFor df attr)) :=
    funext (fun attr => dpAttrStep_eq_dpSpecAttr preds (colFor df attr))
  rw [hfun]
  rfl

/-! ### Concrete fixtures (the spec's worked scenario) -/

/-- The spec's scenario detector: one protected attribute, threshold 0.05,
default metric list. -/
def exDetector : MLModelBiasDetector :=
  { model_name := "loan_approval_model"
    protected_attributes := ["attr"]
    threshold := 1 / 20
    metrics := allMetrics }

/-- The spec's scenario group table: one attribute column `attr` with values
`[a, a, b, b]`. -/
def exDF : DataFrame := { cols := [("attr", ["a", "a", "b", "b"])], nrows := 4 }

def dummyReport : BiasDetectionResult :=
  { overall_bias_score := 0
    bias_detected := false
    threshold_exceeded := false
    metric_scores := []
    group_scores := []
    recommendations := []
    metadata := { model_name := ""
                  sample_size := 0
                  protected_attributes := []
                  metrics_computed := []
                  threshold := 0
                  timestamp := "" } }

/-- The report computed on the spec's scenario
(predictions `[1,1,0,0]`, true labels `[1,0,0,1]`, no probabilities). -/
def exReport : BiasDetectionResult :=
  (detect_bias exDetector [1, 1, 0, 0] [1, 0, 0, 1] exDF none "t").toOption.getD
    dummyReport

theorem exScenario_validate_ok :
    validate_inputs exDetector.protected_attributes [1, 1, 0, 0] [1, 0, 0, 1] exDF
      = .ok () := by
  norm_num [validate_inputs, DataFrame.hasColumn, exDF, exDetector, List.find?]

theorem detect_bias_ok_of_validate {d : MLModelBiasDetector}
    {preds labels : List ℚ} {df : DataFrame} (probs : Option (List ℚ))
    (now : String)
    (h : validate_inputs d.protected_attributes preds labels df = .ok ()) :
    ∃ r, detect_bias d preds labels df probs now = .ok r := by
  unfold detect_bias
  rw [h]
  exact ⟨_, rfl⟩

theorem exReport_ok :
    detect_bias exDetector [1, 1, 0, 0] [1, 0, 0, 1] exDF none "t" = .ok exReport := by
  rcases detect_bias_ok_of_validate none "t" exScenario_validate_ok with ⟨r, hr⟩
  unfold exReport
  rw [hr]
  rfl

instance (q : ℚ) : Decidable (InUnit q) := by
  unfold InUnit
  infer_instance

/-! ### Claim theorems -/

/-- C1: the demographic-parity metric computes, per configured attribute with
at least two distinct group values, the max-minus-min disparity of per-group
mean prediction rates, takes the maximum across attributes, and on the spec's
scenario (predictions `[1,1,0,0]`, groups `[a,a,b,b]`, threshold 0.05) yields
a demographic-parity score of exactly 1 with bias detected. -/
theorem C1_demographic_parity_max_disparity :
    (∀ (pa : List String) (preds : List ℚ) (df : DataFrame),
      demographic_parity pa preds df = dpSpecScore pa preds df) ∧
    (detect_bias exDetector [1, 1, 0, 0] [1, 0, 0, 1] exDF none "t").toOption.map
      (fun r => (dictLookup r.metric_scores "demographic_parity", r.bias_detected))
      = some (some 1, true) := by
  constructor
  · exact demographic_parity_eq_spec
  · norm_num +decide [detect_bias, validate_inputs, exDetector, exDF, allMetrics,
      compute_bias_metric, demographic_parity, equalized_odds, equal_opportunity,
      counterfactual_fairness, dpAttrStep, tprList, fprList, uniqueVals, uniqueAux,
      colFor, DataFrame.column, DataFrame.hasColumn, maskSelect, npMean, pyMax,
      pyMin, List.filterMap_cons, dictInsert, dictLookup, compute_group_bias,
      BiasMetric.value, generate_recommendations, specificRec, Except.toOption,
      List.find?]

/-- C2: for every successful evaluation, the report's overall_bias_score is
the arithmetic mean of the metric_scores values, and bias_detected holds
exactly when that mean strictly exceeds the configured threshold. -/
theorem C2_overall_aggregation (d : MLModelBiasDetector) (preds labels : List ℚ)
    (df : DataFrame) (probs : Option (List ℚ)) (now : String)
    (r : BiasDetectionResult)
    (h : detect_bias d preds labels df probs now = .ok r) :
    r.overall_bias_score = npMean (r.metric_scores.map (fun p => p.2)) ∧
    (r.bias_detected = true ↔ d.threshold < r.overall_bias_score) := by
  rcases detect_bias_ok h with ⟨-, -, -, hover, hdet, -, -, -⟩
  refine ⟨hover, ?_⟩
  rw [hdet]
  exact decide_eq_true_iff

/-- Witness for C2 at the spec's worked scenario. -/
theorem C2_overall_aggregation_witness :
    exReport.overall_bias_score = npMean (exReport.metric_scores.map (fun p => p.2)) ∧
    (exReport.bias_detected = true ↔
      exDetector.threshold < exReport.overall_bias_score) :=
  C2_overall_aggregation exDetector [1, 1, 0, 0] [1, 0, 0, 1] exDF none "t"
    exReport exReport_ok

/-- C3: any of the spec's validation violations (length mismatch, group table
row-count mismatch, missing attribute column, non-binary prediction or label)
makes `detect_bias` fail with a `ValueError` carrying one of the five
rule-naming messages, and no report is produced. -/
theorem C3_validation_eager (d : MLModelBiasDetector) (preds labels : List ℚ)
    (df : DataFrame) (probs : Option (List ℚ)) (now : String)
    (h : preds.length ≠ labels.length ∨ preds.length ≠ df.nrows ∨
         (∃ a ∈ d.protected_attributes, df.hasColumn a = false) ∨
         (∃ p ∈ preds, p ≠ 0 ∧ p ≠ 1) ∨ (∃ p ∈ labels, p ≠ 0 ∧ p ≠ 1)) :
    ∃ msg, detect_bias d preds labels df probs now = .error (.valueError msg) ∧
      (msg = "Predictions and true labels must have same length" ∨
       msg = "Predictions and protected attributes must have same length" ∨
       (∃ a, msg = "Protected attribute " ++ a ++ " not found in data") ∨
       msg = "Predictions must be binary (0 or 1)" ∨
       msg = "True labels must be binary (0 or 1)") := by
  cases hval : validate_inputs d.protected_attributes preds labels df with
  | error e =>
    rcases validate_inputs_error hval with ⟨msg, rfl, hmsg⟩
    exact ⟨msg, detect_bias_error hval, hmsg⟩
  | ok u =>
    cases u
    rcases validate_inputs_ok hval with ⟨h1, h2, h3, h4, h5⟩
    exfalso
    rcases h with h | h | ⟨a, ha, hcol⟩ | ⟨p, hp, hne⟩ | ⟨p, hp, hne⟩
    · exact h h1
    · exact h h2
    · rw [h3 a ha] at hcol
      exact absurd hcol (by simp)
    · rcases h4 p hp with rfl | rfl
      · exact hne.1 rfl
      · exact hne.2 rfl
    · rcases h5 p hp with rfl | rfl
      · exact hne.1 rfl
      · exact hne.2 rfl

/-- Witness for C3: predictions of length 4 against labels of length 2. -/
theorem C3_validation_eager_witness :
    ∃ msg, detect_bias exDetector [1, 1, 0, 0] [1, 0] exDF none "t"
        = .error (.valueError msg) ∧
      (msg = "Predictions and true labels must have same length" ∨
       msg = "Predictions and protected attributes must have same length" ∨
       (∃ a, msg = "Protected attribute " ++ a ++ " not found in data") ∨
       msg = "Predictions must be binary (0 or 1)" ∨
       msg = "True labels must be binary (0 or 1)") :=
  C3_validation_eager exDetector [1, 1, 0, 0] [1, 0] exDF none "t"
    (Or.inl (by decide))

/-- C4 counterexample: with no metric list supplied, the default metric list
is the five enum members, so it is not "exactly the four" named metrics —
counterfactual fairness is a fifth default metric. -/
theorem C4_default_metrics_counterexample :
    (initDetector "model" ["attr"] (1 / 20) none).toOption.map
      (fun d => d.metrics)
      = some [BiasMetric.demographic_parity, BiasMetric.equalized_odds,
              BiasMetric.equal_opportunity, BiasMetric.calibration,
              BiasMetric.counterfactual_fairness] ∧
    BiasMetric.counterfactual_fairness ∉
      [BiasMetric.demographic_parity, BiasMetric.equalized_odds,
       BiasMetric.equal_opportunity, BiasMetric.calibration] := by
  exact ⟨rfl, by decide⟩

/-- C4 amended: when no metric list is supplied at construction, the default
metric set is exactly the five members of the `BiasMetric` enum — demographic
parity, equalized odds, equal opportunity, calibration, and counterfactual
fairness. -/
theorem C4_default_metrics_amended (n : String) (pa : List String) (t : ℚ) :
    (initDetector n pa t none).toOption.map (fun d => d.metrics)
      = some [BiasMetric.demographic_parity, BiasMetric.equalized_odds,
              BiasMetric.equal_opportunity, BiasMetric.calibration,
              BiasMetric.counterfactual_fairness] := rfl

/-- C5 counterexample: construction with an empty protected-attribute list and
a negative threshold succeeds and stores both verbatim — no
ConfigurationError is raised. -/
theorem C5_no_constructor_validation_counterexample :
    (initDetector "model" [] (-(1 / 10) : ℚ) none).toOption.map
      (fun d => (d.protected_attributes, d.threshold))
      = some ([], -(1 / 10)) := rfl

/-- C5 amended: the constructor performs no validation at all — it succeeds
for every model name, every protected-attribute list (including the empty
one), every threshold (including negative ones) and every metric list. -/
theorem C5_construction_total_amended (n : String) (pa : List String) (t : ℚ)
    (ms : Option (List BiasMetric)) :
    (initDetector n pa t ms).toOption.isSome = true := rfl

/-- The scenario detector with threshold 0.9: the demographic-parity score 1
exceeds the threshold individually, but the overall mean 0.8 does not. -/
def exDetector6 : MLModelBiasDetector :=
  { model_name := "loan_approval_model"
    protected_attributes := ["attr"]
    threshold := 9 / 10
    metrics := allMetrics }

/-- C6 counterexample: with threshold 0.9 on the worked scenario the
demographic-parity score is 1 (which exceeds the threshold), yet the
recommendations consist solely of the "no significant bias" notice — no
metric-specific recommendation is emitted, because the branch is keyed on the
overall bias_detected flag (here mean 0.8 ≤ 0.9), not on individual metric
scores. -/
theorem C6_recommendations_counterexample :
    (detect_bias exDetector6 [1, 1, 0, 0] [1, 0, 0, 1] exDF none "t").toOption.map
      (fun r => (dictLookup r.metric_scores "demographic_parity", r.recommendations))
      = some (some 1, [noBiasRec]) ∧
    exDetector6.threshold < 1 := by
  constructor
  · norm_num +decide [detect_bias, validate_inputs, exDetector6, exDF, allMetrics,
      compute_bias_metric, demographic_parity, equalized_odds, equal_opportunity,
      counterfactual_fairness, dpAttrStep, tprList, fprList, uniqueVals, uniqueAux,
      colFor, DataFrame.column, DataFrame.hasColumn, maskSelect, npMean, pyMax,
      pyMin, List.filterMap_cons, dictInsert, dictLookup, compute_group_bias,
      BiasMetric.value, generate_recommendations, specificRec, Except.toOption,
      List.find?]
  · norm_num [exDetector6]

/-- C6 amended: recommendation generation is keyed on the overall
bias_detected flag.  When it is false the single notice is emitted (even if an
individual metric exceeds the threshold); when it is true, one
metric-specific recommendation is emitted per metric among demographic
parity, equalized odds, equal opportunity and calibration whose individual
score exceeds the threshold (counterfactual fairness has no specific
recommendation), followed by the fixed general suggestions. -/
theorem C6_recommendations_amended (d : MLModelBiasDetector)
    (preds labels : List ℚ) (df : DataFrame) (probs : Option (List ℚ))
    (now : String) (r : BiasDetectionResult)
    (h : detect_bias d preds labels df probs now = .ok r) :
    (r.bias_detected = false → r.recommendations = [noBiasRec]) ∧
    (r.bias_detected = true →
      r.recommendations =
        ((r.metric_scores.filter (fun p => decide (d.threshold < p.2))).map
          (fun p => p.1)).filterMap specificRec ++ generalRecs) ∧
    specificRec BiasMetric.counterfactual_fairness.value = none := by
  rcases detect_bias_ok h with ⟨-, -, -, -, -, -, hrec, -⟩
  refine ⟨?_, ?_, rfl⟩
  · intro hb
    rw [hrec, hb]
    rfl
  · intro hb
    rw [hrec, hb]
    rfl

/-- Witness for the amended C6 at the spec's worked scenario. -/
theorem C6_recommendations_amended_witness :
    (exReport.bias_detected = false → exReport.recommendations = [noBiasRec]) ∧
    (exReport.bias_detected = true →
      exReport.recommendations =
        ((exReport.metric_scores.filter
          (fun p => decide (exDetector.threshold < p.2))).map
          (fun p => p.1)).filterMap specificRec ++ generalRecs) ∧
    specificRec BiasMetric.counterfactual_fairness.value = none :=
  C6_recommendations_amended exDetector [1, 1, 0, 0] [1, 0, 0, 1] exDF none "t"
    exReport exReport_ok

/-- C7: on every successful evaluation, every metric score and every group
score in the report lies in the closed unit interval. -/
theorem C7_scores_unit_interval (d : MLModelBiasDetector) (preds labels : List ℚ)
    (df : DataFrame) (probs : Option (List ℚ)) (now : String)
    (r : BiasDetectionResult)
    (h : detect_bias d preds labels df probs now = .ok r) :
    (∀ kv ∈ r.metric_scores, InUnit kv.2) ∧ (∀ kv ∈ r.group_scores, InUnit kv.2) := by
  rcases detect_bias_ok h with ⟨hval, hms, hgs, -, -, -, -, -⟩
  rcases validate_inputs_ok hval with ⟨-, -, -, h4, h5⟩
  have hpreds : ∀ p ∈ preds, InUnit p := by
    intro p hp
    rcases h4 p hp with rfl | rfl
    · exact InUnit.zero
    · exact ⟨by norm_num, le_refl 1⟩
  have hlabels : ∀ p ∈ labels, InUnit p := by
    intro p hp
    rcases h5 p hp with rfl | rfl
    · exact InUnit.zero
    · exact ⟨by norm_num, le_refl 1⟩
  constructor
  · rw [hms]
    exact metric_fold_values InUnit _
      (fun m => compute_bias_metric_inUnit d m preds labels df probs hpreds hlabels)
      d.metrics [] (by simp)
  · rw [hgs]
    exact group_fold_values InUnit _
      (fun m kv hkv => mem_compute_group_bias_inUnit hpreds hkv)
      d.metrics [] (by simp)

/-- Witness for C7 at the spec's worked scenario. -/
theorem C7_scores_unit_interval_witness :
    exReport.metric_scores.all (fun kv => decide (InUnit kv.2)) = true ∧
    exReport.group_scores.all (fun kv => decide (InUnit kv.2)) = true := by
  have h := C7_scores_unit_interval exDetector [1, 1, 0, 0] [1, 0, 0, 1] exDF
    none "t" exReport exReport_ok
  constructor
  · rw [List.all_eq_true]
    intro kv hkv
    exact decide_eq_true (h.1 kv hkv)
  · rw [List.all_eq_true]
    intro kv hkv
    exact decide_eq_true (h.2 kv hkv)

/-- C8: with the calibration metric configured and no probability array
supplied, evaluation still succeeds, the calibration entry of metric_scores is
exactly 0, and the skip is logged as a warning. -/
theorem C8_calibration_skip (d : MLModelBiasDetector) (preds labels : List ℚ)
    (df : DataFrame) (now : String)
    (hval : validate_inputs d.protected_attributes preds labels df = .ok ())
    (hmem : BiasMetric.calibration ∈ d.metrics) :
    ∃ r, detect_bias d preds labels df none now = .ok r ∧
      dictLookup r.metric_scores "calibration" = some 0 ∧
      metricWarnings BiasMetric.calibration none
        = ["Calibration requires prediction probabilities, skipping"] := by
  rcases detect_bias_ok_of_validate none now hval with ⟨r, hr⟩
  refine ⟨r, hr, ?_, rfl⟩
  rcases detect_bias_ok hr with ⟨-, hms, -⟩
  rw [hms]
  refine dictLookup_metric_fold _ ?_ d.metrics [] (Or.inl ⟨_, hmem, rfl⟩)
  intro m hm
  cases m
  case calibration => rfl
  all_goals exact absurd hm (by decide)

/-- Witness for C8 at the spec's worked scenario. -/
theorem C8_calibration_skip_witness :
    ∃ r, detect_bias exDetector [1, 1, 0, 0] [1, 0, 0, 1] exDF none "t" = .ok r ∧
      dictLookup r.metric_scores "calibration" = some 0 ∧
      metricWarnings BiasMetric.calibration none
        = ["Calibration requires prediction probabilities, skipping"] :=
  C8_calibration_skip exDetector [1, 1, 0, 0] [1, 0, 0, 1] exDF "t"
    exScenario_validate_ok (by decide)

/-- C9 counterexample: two evaluations with identical predictions, labels,
group table and probabilities return different reports, because the metadata
records the wall-clock timestamp of each call. -/
theorem C9_idempotence_counterexample :
    detect_bias exDetector [1, 1, 0, 0] [1, 0, 0, 1] exDF none "2024-01-01T00:00:00"
      ≠ detect_bias exDetector [1, 1, 0, 0] [1, 0, 0, 1] exDF none
          "2024-01-01T00:00:01" := by
  intro h
  rcases detect_bias_ok_of_validate none "2024-01-01T00:00:00"
    exScenario_validate_ok with ⟨r1, hr1⟩
  rcases detect_bias_ok_of_validate none "2024-01-01T00:00:01"
    exScenario_validate_ok with ⟨r2, hr2⟩
  rcases detect_bias_ok hr1 with ⟨-, -, -, -, -, -, -, hm1⟩
  rcases detect_bias_ok hr2 with ⟨-, -, -, -, -, -, -, hm2⟩
  rw [hr1, hr2] at h
  injection h with hr
  subst hr
  have hts : ("2024-01-01T00:00:00" : String) = "2024-01-01T00:00:01" :=
    congrArg Metadata.timestamp (hm1.symm.trans hm2)
  exact absurd hts (by decide)

/-- C9 amended: two evaluations of the same detector on identical inputs
agree on every report field except the metadata timestamp (which records the
clock at call time); no hidden mutable state affects any score. -/
theorem C9_idempotence_amended (d : MLModelBiasDetector) (preds labels : List ℚ)
    (df : DataFrame) (probs : Option (List ℚ)) (t1 t2 : String)
    (r1 r2 : BiasDetectionResult)
    (h1 : detect_bias d preds labels df probs t1 = .ok r1)
    (h2 : detect_bias d preds labels df probs t2 = .ok r2) :
    r1.overall_bias_score = r2.overall_bias_score ∧
    r1.bias_detected = r2.bias_detected ∧
    r1.threshold_exceeded = r2.threshold_exceeded ∧
    r1.metric_scores = r2.metric_scores ∧
    r1.group_scores = r2.group_scores ∧
    r1.recommendations = r2.recommendations ∧
    r1.metadata.model_name = r2.metadata.model_name ∧
    r1.metadata.sample_size = r2.metadata.sample_size ∧
    r1.metadata.protected_attributes = r2.metadata.protected_attributes ∧
    r1.metadata.metrics_computed = r2.metadata.metrics_computed ∧
    r1.metadata.threshold = r2.metadata.threshold := by
  rcases detect_bias_ok h1 with ⟨-, a1, b1, c1, d1, e1, f1, g1⟩
  rcases detect_bias_ok h2 with ⟨-, a2, b2, c2, d2, e2, f2, g2⟩
  have hms : r1.metric_scores = r2.metric_scores := a1.trans a2.symm
  have hgs : r1.group_scores = r2.group_scores := b1.trans b2.symm
  have hov : r1.overall_bias_score = r2.overall_bias_score := by
    rw [c1, c2, hms]
  have hbd : r1.bias_detected = r2.bias_detected := by
    rw [d1, d2, hov]
  refine ⟨hov, hbd, by rw [e1, e2, hbd], hms, hgs, by rw [f1, f2, hms, hbd],
    ?_, ?_, ?_, ?_, ?_⟩ <;> rw [g1, g2]

/-- The scenario report computed with a second, later timestamp. -/
def exReportU : BiasDetectionResult :=
  (detect_bias exDetector [1, 1, 0, 0] [1, 0, 0, 1] exDF none "u").toOption.getD
    dummyReport

theorem exReportU_ok :
    detect_bias exDetector [1, 1, 0, 0] [1, 0, 0, 1] exDF none "u"
      = .ok exReportU := by
  rcases detect_bias_ok_of_validate none "u" exScenario_validate_ok with ⟨r, hr⟩
  unfold exReportU
  rw [hr]
  rfl

/-- Witness for the amended C9: the two scenario reports taken at timestamps
"t" and "u" agree on all fields but the timestamp. -/
theorem C9_idempotence_amended_witness :
    exReport.overall_bias_score = exReportU.overall_bias_score ∧
    exReport.bias_detected = exReportU.bias_detected ∧
    exReport.threshold_exceeded = exReportU.threshold_exceeded ∧
    exReport.metric_scores = exReportU.metric_scores ∧
    exReport.group_scores = exReportU.group_scores ∧
    exReport.recommendations = exReportU.recommendations ∧
    exReport.metadata.model_name = exReportU.metadata.model_name ∧
    exReport.metadata.sample_size = exReportU.metadata.sample_size ∧
    exReport.metadata.protected_attributes = exReportU.metadata.protected_attributes ∧
    exReport.metadata.metrics_computed = exReportU.metadata.metrics_computed ∧
    exReport.metadata.threshold = exReportU.metadata.threshold :=
  C9_idempotence_amended exDetector [1, 1, 0, 0] [1, 0, 0, 1] exDF none "t" "u"
    exReport exReportU exReport_ok exReportU_ok

/-- C10: the counterfactual-fairness computation is exactly the
demographic-parity computation, so when both metrics are configured their
metric_scores entries coincide on every successful evaluation. -/
theorem C10_counterfactual_equals_dp :
    (∀ (pa : List String) (preds : List ℚ) (df : DataFrame),
      counterfactual_fairness pa preds df = demographic_parity pa preds df) ∧
    (∀ (d : MLModelBiasDetector) (preds labels : List ℚ) (df : DataFrame)
       (probs : Option (List ℚ)) (now : String) (r : BiasDetectionResult),
      detect_bias d preds labels df probs now = .ok r →
      BiasMetric.counterfactual_fairness ∈ d.metrics →
      BiasMetric.demographic_parity ∈ d.metrics →
      dictLookup r.metric_scores "counterfactual_fairness"
        = dictLookup r.metric_scores "demographic_parity") := by
  constructor
  · intro pa preds df
    rfl
  · intro d preds labels df probs now r h hcf hdp
    rcases detect_bias_ok h with ⟨-, hms, -⟩
    rw [hms]
    have hcfl := dictLookup_metric_fold (k := "counterfactual_fairness")
      (v := demographic_parity d.protected_attributes preds df)
      (fun m => compute_bias_metric d m preds labels df probs)
      (by
        intro m hm
        cases m
        case counterfactual_fairness => rfl
        all_goals exact absurd hm (by decide))
      d.metrics [] (Or.inl ⟨_, hcf, rfl⟩)
    have hdpl := dictLookup_metric_fold (k := "demographic_parity")
      (v := demographic_parity d.protected_attributes preds df)
      (fun m => compute_bias_metric d m preds labels df probs)
      (by
        intro m hm
        cases m
        case demographic_parity => rfl
        all_goals exact absurd hm (by decide))
      d.metrics [] (Or.inl ⟨_, hdp, rfl⟩)
    rw [hcfl, hdpl]

/-- Witness for C10 at the spec's worked scenario. -/
theorem C10_counterfactual_equals_dp_witness :
    dictLookup exReport.metric_scores "counterfactual_fairness"
      = dictLookup exReport.metric_scores "demographic_parity" :=
  C10_counterfactual_equals_dp.2 exDetector [1, 1, 0, 0] [1, 0, 0, 1] exDF none
    "t" exReport exReport_ok (by decide) (by decide)

end BiasDetection
